import Mathlib

/-!
Shallow embedding of `mle_logging/utils/comms.py` (console reporting utilities).

Modelling conventions:
* Each print function is modelled as a pure function returning the structure it
  renders (a grid of panels resp. a table); writing to the console is the act of
  returning that value.  A function that prints nothing returns `none`; a
  function whose Python execution raises an exception is modelled as returning
  `none` of an `Option` result (documented at the definition).
* Python dictionaries are association lists with `List.lookup`.
* Python floats are modelled as rationals; `np.round_(x, 3)` is decimal
  rounding half-to-even at 3 decimal places; `str` of a float value is the
  decimal rendering `decStr` (integer part, a dot, and the fractional digits,
  with `.0` for whole numbers, as Python prints such values).
-/

/-- Python values as they appear in `format_content` / `print_startup`:
strings, ints, bools, `None`, and lists. -/
inductive PyVal where
  | str (s : String)
  | int (n : Int)
  | bool (b : Bool)
  | none
  | list (xs : List PyVal)

/-- Python `repr` of a value (used by `str` on list elements); string elements
are surrounded by single quotation marks (Char 39). -/
def pyRepr : PyVal → String
  | .str s => String.singleton (Char.ofNat 39) ++ s ++ String.singleton (Char.ofNat 39)
  | .int n => toString n
  | .bool true => "True"
  | .bool false => "False"
  | .none => "None"
  | .list xs => "[" ++ String.intercalate ", " (xs.attach.map (fun x => pyRepr x.1)) ++ "]"
decreasing_by
  have := List.sizeOf_lt_of_mem x.2
  simp only [PyVal.list.sizeOf_spec]
  omega

/-- Python `str` of a value, as used by the f-strings in the source. -/
def pyStr : PyVal → String
  | .str s => s
  | .list xs => "[" ++ String.intercalate ", " (xs.map pyRepr) ++ "]"
  | v => pyRepr v

/-- The value part of `format_content`: list values render comma-joined (the
source's element loop is string interleaving with ", "), all other values via
`str`. -/
def format_value : PyVal → String
  | .list xs => String.intercalate ", " (xs.map pyStr)
  | v => pyStr v

/-- `format_content` from `print_startup`: the bold title, a colon, and the
formatted value. -/
def format_content (title : String) (value : PyVal) : String :=
  ("[b]" ++ title ++ "[/b]: ") ++ format_value value

/-- A rich `Panel` holding already-formatted content (`expand=True` always). -/
structure Panel where
  content : String
deriving DecidableEq, Repr

/-- A rich table column: header text, style, fixed width, justification. -/
structure Column where
  header : String
  style : String
  width : Nat
  justify : String
deriving DecidableEq, Repr

/-- A rich `Table`: header visibility, columns, and string cell rows
(`row_styles`, `border_style` and `box` are fixed constants in the source and
carry no information, so they are omitted). -/
structure Table where
  show_header : Bool
  columns : List Column
  rows : List (List String)
deriving DecidableEq, Repr

/-- A time-tick value: `Dict[str, Union[str, float]]` values. -/
inductive TimeVal where
  | str (s : String)
  | num (q : ℚ)
deriving DecidableEq, Repr

/-- Round the fraction `num / den` (`den > 0`) half-to-even to an integer (the
rounding mode of `np.round_`): `f` is the floor, `r` the nonnegative remainder
numerator, and `2 * r` against `den` decides below/above/at the half. -/
def roundHalfEven (num : ℤ) (den : ℕ) : ℤ :=
  let f : ℤ := num.fdiv den
  let r : ℤ := num - f * den
  if 2 * r < den then f
  else if (den : ℤ) < 2 * r then f + 1
  else if f % 2 = 0 then f else f + 1

/-- `np.round_(q, 3)`: decimal rounding to 3 places, i.e. the value
`q * 1000 = (q.num * 1000) / q.den` rounded half-to-even, divided by 1000. -/
def round3 (q : ℚ) : ℚ := mkRat (roundHalfEven (q.num * 1000) q.den) 1000

/-- Decimal rendering of a rational whose denominator divides a power of ten,
matching Python `str` on such float values: minimal fractional digits, at least
one (`1.0`, `0.5`, `1.235`).  Rationals with no finite decimal expansion fall
back to `toString` (never reached by the claims). -/
def decStr (q : ℚ) : String :=
  match (List.range 31).find? (fun e => q.den ∣ 10 ^ e) with
  | some e =>
    let scaled : Nat := q.num.natAbs * (10 ^ e / q.den)
    let ip : Nat := scaled / 10 ^ e
    let fp : Nat := scaled % 10 ^ e
    let fracStr : String :=
      if e = 0 then "0"
      else
        let s := toString fp
        String.mk (List.replicate (e - s.length) (Char.ofNat 48)) ++ s
    (if q.num < 0 then "-" else "") ++ toString ip ++ "." ++ fracStr
  | none => toString q

/-- Python `str` of a tick value. -/
def strTimeVal : TimeVal → String
  | .str s => s
  | .num q => decStr q

/-! ## `print_update` -/

/-- The time-group columns of `print_update`: the first gets the watch marker,
width 14 and left justification; later ones width 12, centered; all styled red. -/
def timeColumns : List String → List Column
  | [] => []
  | c :: cs =>
    { header := ":watch: [red]" ++ c ++ "[/red]", style := "red"
      width := 14, justify := "left" } ::
    cs.map (fun c2 =>
      { header := "[red]" ++ c2 ++ "[/red]", style := "red"
        width := 12, justify := "center" })

/-- The stat-group columns of `print_update`: the first gets the chart marker
and width 14; later ones width 12; all centered, default style. -/
def statColumns : List String → List Column
  | [] => []
  | c :: cs =>
    { header := ":chart_with_downwards_trend: [blue]" ++ c ++ "[/blue]", style := ""
      width := 14, justify := "center" } ::
    cs.map (fun c2 =>
      { header := "[blue]" ++ c2 ++ "[/blue]", style := ""
        width := 12, justify := "center" })

/-- `row_list_time`: look each requested time name up in `c_tick`, falling back
to the placeholder string. -/
def row_list_time (time_to_print : List String) (c_tick : List (String × TimeVal)) :
    List TimeVal :=
  time_to_print.map (fun c =>
    match List.lookup c c_tick with
    | some v => v
    | none => .str "---")

/-- `row_list_stats`: look each requested stat name up in `s_tick`, rounding
present values to 3 decimals, falling back to the placeholder string. -/
def row_list_stats (what_to_print : List String) (s_tick : List (String × ℚ)) :
    List TimeVal :=
  what_to_print.map (fun s =>
    match List.lookup s s_tick with
    | some v => .num (round3 v)
    | none => .str "---")

/-- `print_update`: builds the one-row table that the function prints
(`show_header=print_header`; time columns then stat columns; the single data
row is `str` of each looked-up value). -/
def print_update (time_to_print what_to_print : List String)
    (c_tick : List (String × TimeVal)) (s_tick : List (String × ℚ))
    (print_header : Bool) : Table :=
  { show_header := print_header
    columns := timeColumns time_to_print ++ statColumns what_to_print
    rows := [(row_list_time time_to_print c_tick ++
              row_list_stats what_to_print s_tick).map strTimeVal] }

/-! ## `print_startup` -/

/-- Lift an optional Python string argument to a `PyVal`. -/
def optStr : Option String → PyVal
  | some s => .str s
  | none => .none

/-- Lift an optional Python int argument to a `PyVal`. -/
def optInt : Option Int → PyVal
  | some n => .int n
  | none => .none

/-- Lift an optional Python bool argument to a `PyVal`. -/
def optBool : Option Bool → PyVal
  | some b => .bool b
  | none => .none

/-- The `time_to_print` list computed at the top of `print_startup`: the input
time names with every occurrence of "time" and "time_elapsed" removed. -/
def startup_time_to_print (time_to_track : List String) : List String :=
  time_to_track.filter (fun t => !(t == "time" || t == "time_elapsed"))

/-- The `renderables` list of `print_startup`, indices 0-11 exactly as in the
source (index 5 = tensorboard, 7 = tracked ckpt time, 10 = top-k metric name,
11 = top-k minimization are built but never placed on the grid). -/
def startupRenderables (experiment_dir : String) (config_fname : Option String)
    (time_to_print : List String) (what_to_track : Option (List String))
    (seed_id : PyVal) (use_tboard : Bool) (model_type : String)
    (ckpt_time_to_track : Option String)
    (save_every_k_ckpt save_top_k_ckpt : Option Int)
    (top_k_metric_name : Option String) (top_k_minimize_metric : Option Bool) :
    List Panel :=
  [⟨format_content ":book: Log Dir" (.str experiment_dir)⟩,
   ⟨format_content ":page_facing_up: Config" (optStr config_fname)⟩,
   ⟨format_content ":watch: Time" (.list (time_to_print.map .str))⟩,
   ⟨format_content ":chart_with_downwards_trend: Stats"
      (match what_to_track with
       | some xs => .list (xs.map .str)
       | none => .none)⟩,
   ⟨format_content ":seedling: Seed ID" seed_id⟩,
   ⟨format_content ":chart_with_upwards_trend: Tensorboard" (.bool use_tboard)⟩,
   ⟨format_content ":rocket: Model" (.str model_type)⟩,
   ⟨format_content "Tracked ckpt Time" (optStr ckpt_time_to_track)⟩,
   ⟨format_content ":clock1130: Every k-th ckpt" (optInt save_every_k_ckpt)⟩,
   ⟨format_content ":trident: Top k ckpt" (optInt save_top_k_ckpt)⟩,
   ⟨format_content "Top k-th metric" (optStr top_k_metric_name)⟩,
   ⟨format_content "Top k-th minimization" (optBool top_k_minimize_metric)⟩]

/-- The grid printed by `print_startup`: rows (0,1), (2,3), (4,6), and the
conditional fourth row chosen by the `save_every_k_ckpt` / `save_top_k_ckpt`
if/elif chain. -/
def startupGrid (experiment_dir : String) (config_fname : Option String)
    (time_to_print : List String) (what_to_track : Option (List String))
    (seed_id : PyVal) (use_tboard : Bool) (model_type : String)
    (ckpt_time_to_track : Option String)
    (save_every_k_ckpt save_top_k_ckpt : Option Int)
    (top_k_metric_name : Option String) (top_k_minimize_metric : Option Bool) :
    List (List Panel) :=
  let r := startupRenderables experiment_dir config_fname time_to_print
    what_to_track seed_id use_tboard model_type ckpt_time_to_track
    save_every_k_ckpt save_top_k_ckpt top_k_metric_name top_k_minimize_metric
  [[r.getD 0 ⟨""⟩, r.getD 1 ⟨""⟩],
   [r.getD 2 ⟨""⟩, r.getD 3 ⟨""⟩],
   [r.getD 4 ⟨""⟩, r.getD 6 ⟨""⟩]] ++
  (if save_every_k_ckpt = none ∧ save_top_k_ckpt ≠ none then
    [[r.getD 9 ⟨""⟩]]
   else if save_every_k_ckpt ≠ none ∧ save_top_k_ckpt = none then
    [[r.getD 8 ⟨""⟩]]
   else if save_every_k_ckpt ≠ none ∧ save_top_k_ckpt ≠ none then
    [[r.getD 8 ⟨""⟩, r.getD 9 ⟨""⟩]]
   else [])

/-- `print_startup`: the list comprehension `[t for t in time_to_track ...]`
iterates `time_to_track` unconditionally, so passing `None` raises a
`TypeError` ('NoneType' object is not iterable), modelled as `none`; otherwise
the function prints the grid.  `use_tboard`, `reload`, `print_every_k_updates`,
`ckpt_time_to_track`, `top_k_metric_name` and `top_k_minimize_metric` are
accepted (and some panels are built from them) but never placed on the grid. -/
def print_startup (experiment_dir : String) (config_fname : Option String)
    (time_to_track : Option (List String)) (what_to_track : Option (List String))
    (model_type : String) (seed_id : PyVal) (use_tboard : Bool) (reload : Bool)
    (print_every_k_updates : Option Int) (ckpt_time_to_track : Option String)
    (save_every_k_ckpt save_top_k_ckpt : Option Int)
    (top_k_metric_name : Option String) (top_k_minimize_metric : Option Bool) :
    Option (List (List Panel)) :=
  match time_to_track with
  | none => none
  | some tt =>
    some (startupGrid experiment_dir config_fname (startup_time_to_print tt)
      what_to_track seed_id use_tboard model_type ckpt_time_to_track
      save_every_k_ckpt save_top_k_ckpt top_k_metric_name top_k_minimize_metric)

/-! ## `print_storage` -/

/-- The two fixed columns of the storage table. -/
def storageColumns : List Column :=
  [{ header := "---", style := "red", width := 16, justify := "left" },
   { header := "---", style := "red", width := 64, justify := "left" }]

/-- One unconditional `add_row` call of `print_storage`: the labelled row when
the path is present, nothing otherwise. -/
def pathRow (label : String) (o : Option String) : List (List String) :=
  match o with
  | some p => [[label, p]]
  | none => []

/-- One `print_first`-gated `add_row` call of `print_storage` (the initial and
final model paths). -/
def gatedRow (label : String) (o : Option String) (print_first : Bool) :
    List (List String) :=
  match o with
  | some p => if print_first then [[label, p]] else []
  | none => []

/-- The rows added by the six sequential conditionals of `print_storage`:
figure and extra rows whenever their path is present; initial and final model
rows when present and `print_first`; every-k and top-k rows whenever present. -/
def storageRows (fig_path extra_path init_model_path final_model_path
    every_k_model_path top_k_model_path : Option String)
    (print_first : Bool) : List (List String) :=
  pathRow ":envelope_with_arrow: - Figure" fig_path ++
  pathRow ":envelope_with_arrow: - Extra" extra_path ++
  gatedRow ":envelope_with_arrow: - Model" init_model_path print_first ++
  gatedRow ":envelope_with_arrow: - Model" final_model_path print_first ++
  pathRow ":envelope_with_arrow: - Every-K" every_k_model_path ++
  pathRow ":envelope_with_arrow: - Top-K" top_k_model_path

/-- The `to_print` flag of `print_storage`: the Python sum of the six condition
booleans, compared with zero. -/
def storageToPrint (fig_path extra_path init_model_path final_model_path
    every_k_model_path top_k_model_path : Option String)
    (print_first : Bool) : Bool :=
  ((if fig_path ≠ none then 1 else 0) +
   (if extra_path ≠ none then 1 else 0) +
   (if init_model_path ≠ none ∧ print_first = true then 1 else 0) +
   (if final_model_path ≠ none ∧ print_first = true then 1 else 0) +
   (if every_k_model_path ≠ none then 1 else 0) +
   (if top_k_model_path ≠ none then 1 else 0) : Nat) > 0

/-- `print_storage`: prints the assembled table only when `to_print` holds;
`none` models the call emitting nothing at all. -/
def print_storage (fig_path extra_path init_model_path final_model_path
    every_k_model_path top_k_model_path : Option String)
    (print_first : Bool) : Option Table :=
  if storageToPrint fig_path extra_path init_model_path final_model_path
      every_k_model_path top_k_model_path print_first then
    some { show_header := false
           columns := storageColumns
           rows := storageRows fig_path extra_path init_model_path
             final_model_path every_k_model_path top_k_model_path print_first }
  else none

/-! ## `print_welcome` -/

/-- A wall-clock reading, the input of `datetime.datetime.now()`'s strftime. -/
structure DateTime where
  day : Nat
  month : Nat
  year : Nat
  hour : Nat
  minute : Nat
  second : Nat
deriving DecidableEq, Repr

/-- A two-digit zero-padded decimal field, the strftime directives `%d`, `%m`,
`%H`, `%M`, `%S` (and `%y` after reduction mod 100); faithful for the
two-digit values those directives produce. -/
def twoDigit (n : Nat) : String :=
  String.mk [Nat.digitChar (n / 10), Nat.digitChar (n % 10)]

/-- `now.strftime("%d/%m/%y %H:%M:%S")`. -/
def strftimeWelcome (dt : DateTime) : String :=
  twoDigit dt.day ++ "/" ++ twoDigit dt.month ++ "/" ++ twoDigit (dt.year % 100) ++
  " " ++ twoDigit dt.hour ++ ":" ++ twoDigit dt.minute ++ ":" ++ twoDigit dt.second

/-- `welcome_ascii`: the raw logo string split into lines (index 0 is the empty
line before the art, indices 1-5 the art itself). -/
def welcome_ascii : List String :=
  ["",
   " __    __  __      ______  __      ______  ______",
   "/\\ \"-./  \\/\\ \\    /\\  ___\\/\\ \\    /\\  __ \\/\\  ___\\",
   "\\ \\ \\-./\\ \\ \\ \\___\\ \\  __\\  \\ \\___\\ \\ \\/\\ \\ \\ \\__ \\",
   " \\ \\_\\ \\ \\_\\ \\_____\\ \\_____\\ \\_____\\ \\_____\\ \\_____\\",
   "  \\/_/  \\/_/\\/_____/\\/_____/\\/_____/\\/_____/\\/_____/",
   "    "]

/-- `print_welcome`, modelled as the two-column grid it prints, one
(left, right) pair per row.  Modelled from the spec: the `_version` module is
not part of the sources, so the version string is a parameter; the wall clock
read by `datetime.datetime.now()` is likewise a parameter. -/
def print_welcome (version : String) (now : DateTime) : List (String × String) :=
  [(welcome_ascii.getD 1 "", strftimeWelcome now),
   (welcome_ascii.getD 2 "", "Logger v" ++ version ++ " :lock_with_ink_pen:"),
   (welcome_ascii.getD 3 "",
    "  [link=https://twitter.com/RobertTLange]@RobertTLange[/link] :bird:"),
   (welcome_ascii.getD 4 "",
    "  [link=https://github.com/RobertTLange/mle-logging/blob/main/examples/getting_started.ipynb]MLE-Log Docs[/link] [not italic]:notebook:[/]"),
   (welcome_ascii.getD 5 "",
    "  [link=https://github.com/RobertTLange/mle-logging/]MLE-Log Repo[/link] [not italic]:pencil:[/]")]

/-- The character-level timestamp shape `DD/MM/YY HH:MM:SS`: seventeen
characters, digits in the value positions, the separators `/`, `/`, space,
`:`, `:` in between. -/
def timestampShapeChars : List Char → Bool
  | [d1, d2, a, m1, m2, b, y1, y2, c, h1, h2, d, mi1, mi2, e, s1, s2] =>
    d1.isDigit && d2.isDigit && (a == '/') && m1.isDigit && m2.isDigit &&
    (b == '/') && y1.isDigit && y2.isDigit && (c == ' ') && h1.isDigit &&
    h2.isDigit && (d == ':') && mi1.isDigit && mi2.isDigit && (e == ':') &&
    s1.isDigit && s2.isDigit
  | _ => false

/-- A string matches the timestamp pattern when its characters do. -/
def timestampShape (s : String) : Bool :=
  timestampShapeChars s.data

/-- Whether a column header text carries the given marker: the marker's
characters are exactly the leading characters of the header. -/
def headerHasMarker (marker header : String) : Bool :=
  header.data.take marker.data.length == marker.data

/-! ## Helper lemmas -/

theorem pyStr_str (s : String) : pyStr (.str s) = s := rfl

/-- The single data row of the `print_update` table. -/
theorem print_update_rows (ttp wtp : List String) (ct : List (String × TimeVal))
    (st : List (String × ℚ)) (ph : Bool) :
    (print_update ttp wtp ct st ph).rows =
      [(row_list_time ttp ct).map strTimeVal ++
       (row_list_stats wtp st).map strTimeVal] := by
  simp [print_update]

/-- Cell of the rendered time group at a valid index. -/
theorem time_cell_getD (ttp : List String) (ct : List (String × TimeVal))
    (i : Nat) (h : i < ttp.length) :
    ((row_list_time ttp ct).map strTimeVal).getD i "" =
      (match List.lookup (ttp.getD i "") ct with
       | some v => strTimeVal v
       | none => "---") := by
  rw [List.getD_eq_getElem?_getD, row_list_time, List.map_map, List.getElem?_map,
    List.getElem?_eq_getElem h, List.getD_eq_getElem ttp "" h]
  cases hl : List.lookup ttp[i] ct <;> simp [hl, strTimeVal]

/-- Cell of the rendered stat group at a valid index. -/
theorem stat_cell_getD (wtp : List String) (st : List (String × ℚ))
    (j : Nat) (h : j < wtp.length) :
    ((row_list_stats wtp st).map strTimeVal).getD j "" =
      (match List.lookup (wtp.getD j "") st with
       | some q => decStr (round3 q)
       | none => "---") := by
  rw [List.getD_eq_getElem?_getD, row_list_stats, List.map_map, List.getElem?_map,
    List.getElem?_eq_getElem h, List.getD_eq_getElem wtp "" h]
  cases hl : List.lookup wtp[j] st <;> simp [hl, strTimeVal]

/-- Reading the full row at a time index stays inside the time group. -/
theorem update_row_getD_left (ttp wtp : List String)
    (ct : List (String × TimeVal)) (st : List (String × ℚ))
    (i : Nat) (h : i < ttp.length) :
    ((row_list_time ttp ct).map strTimeVal ++
     (row_list_stats wtp st).map strTimeVal).getD i "" =
      ((row_list_time ttp ct).map strTimeVal).getD i "" := by
  rw [List.getD_eq_getElem?_getD, List.getD_eq_getElem?_getD,
    List.getElem?_append_left]
  simpa [row_list_time] using h

/-- Reading the full row at a shifted stat index lands in the stat group. -/
theorem update_row_getD_right (ttp wtp : List String)
    (ct : List (String × TimeVal)) (st : List (String × ℚ)) (j : Nat) :
    ((row_list_time ttp ct).map strTimeVal ++
     (row_list_stats wtp st).map strTimeVal).getD (ttp.length + j) "" =
      ((row_list_stats wtp st).map strTimeVal).getD j "" := by
  rw [List.getD_eq_getElem?_getD, List.getD_eq_getElem?_getD,
    List.getElem?_append_right (by simp [row_list_time])]
  simp [row_list_time]

theorem getD_append_lt {α : Type} (l₁ l₂ : List α) (i : Nat) (d : α)
    (h : i < l₁.length) : (l₁ ++ l₂).getD i d = l₁.getD i d := by
  rw [List.getD_eq_getElem?_getD, List.getD_eq_getElem?_getD,
    List.getElem?_append_left h]

theorem getD_append_add {α : Type} (l₁ l₂ : List α) (j : Nat) (d : α) :
    (l₁ ++ l₂).getD (l₁.length + j) d = l₂.getD j d := by
  rw [List.getD_eq_getElem?_getD, List.getD_eq_getElem?_getD,
    List.getElem?_append_right (Nat.le_add_right _ _)]
  simp

theorem map_getD_lt {α β : Type} (f : α → β) (l : List α) (i : Nat) (d : β)
    (d' : α) (h : i < l.length) : (l.map f).getD i d = f (l.getD i d') := by
  rw [List.getD_eq_getElem?_getD, List.getElem?_map,
    List.getElem?_eq_getElem h, List.getD_eq_getElem l d' h]
  rfl

theorem string_append_assoc (a b c : String) : (a ++ b) ++ c = a ++ (b ++ c) := by
  apply String.ext
  simp [String.data_append]

/-- A marker holds on `a ++ e` whenever it already fills inside `a`. -/
theorem headerHasMarker_of_take (m a e : String)
    (hle : m.data.length ≤ a.data.length)
    (htake : a.data.take m.data.length = m.data) :
    headerHasMarker m (a ++ e) = true := by
  simp only [headerHasMarker, String.data_append,
    List.take_append_eq_append_take, Nat.sub_eq_zero_of_le hle,
    List.take_zero, List.append_nil, htake, beq_self_eq_true]

/-- A marker fails on `a ++ e` whenever `a` and the marker already disagree at
some position inside both. -/
theorem headerHasMarker_ne_at (m a e : String) (i : Nat)
    (him : i < m.data.length) (hia : i < a.data.length)
    (hne : a.data.getD i ' ' ≠ m.data.getD i ' ') :
    headerHasMarker m (a ++ e) = false := by
  simp only [headerHasMarker, String.data_append]
  rw [beq_eq_false_iff_ne]
  intro hEq
  apply hne
  have h1 : ((a.data ++ e.data).take m.data.length).getD i ' ' =
      (a.data ++ e.data).getD i ' ' := by
    rw [List.getD_eq_getElem?_getD, List.getD_eq_getElem?_getD,
      List.getElem?_take, if_pos him]
  have h2 : (a.data ++ e.data).getD i ' ' = a.data.getD i ' ' := by
    rw [List.getD_eq_getElem?_getD, List.getD_eq_getElem?_getD,
      List.getElem?_append_left hia]
  rw [← h2, ← h1, hEq]

theorem timeColumns_length (l : List String) :
    (timeColumns l).length = l.length := by
  cases l <;> simp [timeColumns]

theorem statColumns_length (l : List String) :
    (statColumns l).length = l.length := by
  cases l <;> simp [statColumns]

theorem timeColumns_getD (l : List String) (i : Nat) (h : i < l.length) :
    (timeColumns l).getD i ⟨"", "", 0, ""⟩ =
      (if i = 0 then
        ⟨":watch: [red]" ++ l.getD i "" ++ "[/red]", "red", 14, "left"⟩
       else
        ⟨"[red]" ++ l.getD i "" ++ "[/red]", "red", 12, "center"⟩) := by
  match l, i with
  | c :: cs, 0 => rfl
  | c :: cs, n + 1 =>
    have h' : n < cs.length := by simpa using h
    simp only [timeColumns, List.getD_cons_succ,
      map_getD_lt _ cs n _ "" h', List.getD_cons_succ]
    simp

theorem statColumns_getD (l : List String) (i : Nat) (h : i < l.length) :
    (statColumns l).getD i ⟨"", "", 0, ""⟩ =
      (if i = 0 then
        ⟨":chart_with_downwards_trend: [blue]" ++ l.getD i "" ++ "[/blue]",
         "", 14, "center"⟩
       else
        ⟨"[blue]" ++ l.getD i "" ++ "[/blue]", "", 12, "center"⟩) := by
  match l, i with
  | c :: cs, 0 => rfl
  | c :: cs, n + 1 =>
    have h' : n < cs.length := by simpa using h
    simp only [statColumns, List.getD_cons_succ,
      map_getD_lt _ cs n _ "" h', List.getD_cons_succ]
    simp

/-! ## Claims -/

/-- C1: In `print_update`, every requested time name absent from `c_tick` and
every requested stat name absent from `s_tick` renders as the placeholder
`"---"`, and the single data row always has exactly
`len(time_to_print) + len(what_to_print)` cells, whatever the mappings hold. -/
theorem print_update_placeholder_cells (ttp wtp : List String)
    (ct : List (String × TimeVal)) (st : List (String × ℚ)) (ph : Bool) :
    ∃ row, (print_update ttp wtp ct st ph).rows = [row] ∧
      row.length = ttp.length + wtp.length ∧
      (∀ i, i < ttp.length → List.lookup (ttp.getD i "") ct = none →
        row.getD i "" = "---") ∧
      (∀ j, j < wtp.length → List.lookup (wtp.getD j "") st = none →
        row.getD (ttp.length + j) "" = "---") := by
  refine ⟨_, print_update_rows ttp wtp ct st ph, ?_, ?_, ?_⟩
  · simp [row_list_time, row_list_stats]
  · intro i hi hlk
    rw [update_row_getD_left ttp wtp ct st i hi, time_cell_getD ttp ct i hi, hlk]
  · intro j hj hlk
    rw [update_row_getD_right ttp wtp ct st j, stat_cell_getD wtp st j hj, hlk]

theorem print_update_placeholder_cells_witness :
    ∃ row, (print_update ["a", "b"] ["c"] [("a", .str "1")] [] true).rows = [row] ∧
      row.length = 3 ∧ row.getD 1 "" = "---" ∧ row.getD 2 "" = "---" := by
  obtain ⟨row, h1, h2, h3, h4⟩ :=
    print_update_placeholder_cells ["a", "b"] ["c"] [("a", .str "1")] [] true
  exact ⟨row, h1, h2, h3 1 (by decide) (by decide), h4 0 (by decide) (by decide)⟩

/-- C2: In `print_update`, every stat value present in `s_tick` is rounded to
3 decimal places before text conversion — in particular the stat value
`1.23456` renders as the cell text `"1.235"` — while time values present in
`c_tick` are converted to text without rounding (`1.23456` stays
`"1.23456"`). -/
theorem print_update_stat_rounding (ttp wtp : List String)
    (ct : List (String × TimeVal)) (st : List (String × ℚ)) (ph : Bool) :
    (∀ row ∈ (print_update ttp wtp ct st ph).rows,
      (∀ i, i < ttp.length → ∀ v, List.lookup (ttp.getD i "") ct = some v →
        row.getD i "" = strTimeVal v) ∧
      (∀ j, j < wtp.length → ∀ q, List.lookup (wtp.getD j "") st = some q →
        row.getD (ttp.length + j) "" = decStr (round3 q))) ∧
    (print_update ["t"] ["s"] [("t", .num (mkRat 123456 100000))]
      [("s", mkRat 123456 100000)] true).rows = [["1.23456", "1.235"]] := by
  constructor
  · intro row hrow
    rw [print_update_rows, List.mem_singleton] at hrow
    subst hrow
    constructor
    · intro i hi v hlk
      rw [update_row_getD_left ttp wtp ct st i hi, time_cell_getD ttp ct i hi, hlk]
    · intro j hj q hlk
      rw [update_row_getD_right ttp wtp ct st j, stat_cell_getD wtp st j hj, hlk]
  · decide

theorem print_update_stat_rounding_witness :
    ∀ row ∈ (print_update ["u"] ["v"] [("u", .str "9")]
      [("v", mkRat 123456 100000)] false).rows,
      row.getD 0 "" = "9" ∧ row.getD 1 "" = "1.235" := by
  intro row hrow
  obtain ⟨h1, h2⟩ := (print_update_stat_rounding ["u"] ["v"] [("u", .str "9")]
    [("v", mkRat 123456 100000)] false).1 row hrow
  refine ⟨h1 0 (by decide) (.str "9") (by decide), ?_⟩
  have := h2 0 (by decide) (mkRat 123456 100000) (by decide)
  simpa using this

/-- C8: In `print_update` the table has one column per requested name, time
columns first then stat columns in the given order; widths are 14 for the
first column of each group and 12 for the rest; only the first time column
carries the watch marker and only the first stat column carries the chart
marker. -/
theorem print_update_columns_spec (ttp wtp : List String)
    (ct : List (String × TimeVal)) (st : List (String × ℚ)) (ph : Bool) :
    (print_update ttp wtp ct st ph).columns.length = ttp.length + wtp.length ∧
    (∀ i, i < ttp.length →
      (print_update ttp wtp ct st ph).columns.getD i ⟨"", "", 0, ""⟩ =
        (if i = 0 then
          ⟨":watch: [red]" ++ ttp.getD i "" ++ "[/red]", "red", 14, "left"⟩
         else
          ⟨"[red]" ++ ttp.getD i "" ++ "[/red]", "red", 12, "center"⟩)) ∧
    (∀ j, j < wtp.length →
      (print_update ttp wtp ct st ph).columns.getD (ttp.length + j) ⟨"", "", 0, ""⟩ =
        (if j = 0 then
          ⟨":chart_with_downwards_trend: [blue]" ++ wtp.getD j "" ++ "[/blue]",
           "", 14, "center"⟩
         else
          ⟨"[blue]" ++ wtp.getD j "" ++ "[/blue]", "", 12, "center"⟩)) ∧
    (∀ i, i < (print_update ttp wtp ct st ph).columns.length →
      (headerHasMarker ":watch: "
        ((print_update ttp wtp ct st ph).columns.getD i ⟨"", "", 0, ""⟩).header = true ↔
        (i = 0 ∧ 0 < ttp.length))) ∧
    (∀ i, i < (print_update ttp wtp ct st ph).columns.length →
      (headerHasMarker ":chart_with_downwards_trend: "
        ((print_update ttp wtp ct st ph).columns.getD i ⟨"", "", 0, ""⟩).header = true ↔
        i = ttp.length)) := by
  have hcols : (print_update ttp wtp ct st ph).columns =
      timeColumns ttp ++ statColumns wtp := rfl
  have hlen : (timeColumns ttp ++ statColumns wtp).length =
      ttp.length + wtp.length := by
    simp [timeColumns_length, statColumns_length]
  have hshift : ∀ j : Nat, ttp.length + j = (timeColumns ttp).length + j := by
    intro j; rw [timeColumns_length]
  refine ⟨by rw [hcols]; exact hlen, ?_, ?_, ?_, ?_⟩
  · intro i hi
    rw [hcols, getD_append_lt _ _ _ _ (by rw [timeColumns_length]; exact hi),
      timeColumns_getD ttp i hi]
  · intro j hj
    rw [hcols, hshift j, getD_append_add, statColumns_getD wtp j hj]
  · intro i hilen
    rw [hcols, hlen] at hilen
    rw [hcols]
    rcases Nat.lt_or_ge i ttp.length with hi | hi
    · rw [getD_append_lt _ _ _ _ (by rw [timeColumns_length]; exact hi),
        timeColumns_getD ttp i hi]
      by_cases h0 : i = 0
      · subst h0
        rw [if_pos rfl]
        simp only [string_append_assoc]
        rw [headerHasMarker_of_take _ _ _ (by decide) (by decide)]
        simpa using hi
      · rw [if_neg h0]
        simp only [string_append_assoc]
        rw [headerHasMarker_ne_at _ _ _ 0 (by decide) (by decide) (by decide)]
        simp [h0]
    · obtain ⟨j, rfl⟩ : ∃ j, i = ttp.length + j := ⟨i - ttp.length, by omega⟩
      have hj : j < wtp.length := by omega
      rw [hshift j, getD_append_add, statColumns_getD wtp j hj]
      by_cases h0 : j = 0
      · subst h0
        rw [if_pos rfl]
        simp only [string_append_assoc]
        rw [headerHasMarker_ne_at _ _ _ 1 (by decide) (by decide) (by decide)]
        simp [timeColumns_length]
      · rw [if_neg h0]
        simp only [string_append_assoc]
        rw [headerHasMarker_ne_at _ _ _ 0 (by decide) (by decide) (by decide)]
        simp [timeColumns_length]
        omega
  · intro i hilen
    rw [hcols, hlen] at hilen
    rw [hcols]
    rcases Nat.lt_or_ge i ttp.length with hi | hi
    · rw [getD_append_lt _ _ _ _ (by rw [timeColumns_length]; exact hi),
        timeColumns_getD ttp i hi]
      by_cases h0 : i = 0
      · subst h0
        rw [if_pos rfl]
        simp only [string_append_assoc]
        rw [headerHasMarker_ne_at _ _ _ 1 (by decide) (by decide) (by decide)]
        simp
        omega
      · rw [if_neg h0]
        simp only [string_append_assoc]
        rw [headerHasMarker_ne_at _ _ _ 0 (by decide) (by decide) (by decide)]
        simp
        omega
    · obtain ⟨j, rfl⟩ : ∃ j, i = ttp.length + j := ⟨i - ttp.length, by omega⟩
      have hj : j < wtp.length := by omega
      rw [hshift j, getD_append_add, statColumns_getD wtp j hj]
      by_cases h0 : j = 0
      · subst h0
        rw [if_pos rfl]
        simp only [string_append_assoc]
        rw [headerHasMarker_of_take _ _ _ (by decide) (by decide)]
        simp [timeColumns_length]
      · rw [if_neg h0]
        simp only [string_append_assoc]
        rw [headerHasMarker_ne_at _ _ _ 0 (by decide) (by decide) (by decide)]
        simp [timeColumns_length]
        omega

theorem print_update_columns_spec_witness :
    (print_update ["a", "b"] ["c"] [] [] true).columns.length = 3 ∧
    (print_update ["a", "b"] ["c"] [] [] true).columns.getD 0 ⟨"", "", 0, ""⟩ =
      ⟨":watch: [red]" ++ "a" ++ "[/red]", "red", 14, "left"⟩ ∧
    (print_update ["a", "b"] ["c"] [] [] true).columns.getD 2 ⟨"", "", 0, ""⟩ =
      ⟨":chart_with_downwards_trend: [blue]" ++ "c" ++ "[/blue]", "", 14, "center"⟩ ∧
    (headerHasMarker ":watch: "
      ((print_update ["a", "b"] ["c"] [] [] true).columns.getD 1 ⟨"", "", 0, ""⟩).header =
      true ↔ (1 = 0 ∧ 0 < 2)) := by
  obtain ⟨h1, h2, h3, h4, _⟩ := print_update_columns_spec ["a", "b"] ["c"] [] [] true
  refine ⟨h1, ?_, ?_, ?_⟩
  · simpa using h2 0 (by decide)
  · simpa using h3 0 (by decide)
  · simpa using h4 1 (by rw [h1]; decide)

/-- C5: `print_storage` emits output iff at least one row qualifies: with all
six paths `None` and `print_first=False` it prints nothing at all, and with
only `fig_path` set it prints a table containing exactly one row. -/
theorem print_storage_emits_iff :
    print_storage none none none none none none false = none ∧
    (∀ s : String, print_storage (some s) none none none none none false =
      some { show_header := false, columns := storageColumns,
             rows := [[":envelope_with_arrow: - Figure", s]] }) ∧
    (∀ f e i fi ek tk : Option String, ∀ pf : Bool,
      ((print_storage f e i fi ek tk pf).isSome = true ↔
        storageRows f e i fi ek tk pf ≠ [])) := by
  refine ⟨rfl, fun s => rfl, ?_⟩
  intro f e i fi ek tk pf
  cases f <;> cases e <;> cases i <;> cases fi <;> cases ek <;> cases tk <;>
    cases pf <;>
      simp [print_storage, storageToPrint, storageRows, pathRow, gatedRow]

theorem mem_pathRow (L : String) (o : Option String) (r : List String) :
    r ∈ pathRow L o ↔ ∃ p, o = some p ∧ r = [L, p] := by
  cases o <;> simp [pathRow]

theorem mem_gatedRow (L : String) (o : Option String) (pf : Bool)
    (r : List String) :
    r ∈ gatedRow L o pf ↔ (pf = true ∧ ∃ p, o = some p ∧ r = [L, p]) := by
  cases o <;> cases pf <;> simp [gatedRow]

/-- C6: In `print_storage`, a row for `init_model_path` or `final_model_path`
appears iff the path is present and `print_first` is true, while the figure,
extra, every-k and top-k rows appear whenever their path is present,
independent of `print_first`. -/
theorem print_storage_row_conditions (f e i fi ek tk : Option String)
    (pf : Bool) (p : String) :
    ([":envelope_with_arrow: - Figure", p] ∈ storageRows f e i fi ek tk pf ↔
      f = some p) ∧
    ([":envelope_with_arrow: - Extra", p] ∈ storageRows f e i fi ek tk pf ↔
      e = some p) ∧
    ([":envelope_with_arrow: - Model", p] ∈ storageRows f e i fi ek tk pf ↔
      (pf = true ∧ (i = some p ∨ fi = some p))) ∧
    ([":envelope_with_arrow: - Every-K", p] ∈ storageRows f e i fi ek tk pf ↔
      ek = some p) ∧
    ([":envelope_with_arrow: - Top-K", p] ∈ storageRows f e i fi ek tk pf ↔
      tk = some p) := by
  simp only [storageRows, List.mem_append, mem_pathRow, mem_gatedRow]
  refine ⟨?_, ?_, ?_, ?_, ?_⟩ <;> simp +decide <;> tauto

/-- C3: In `print_startup` the conditional fourth grid row is determined by
which of `save_every_k_ckpt` and `save_top_k_ckpt` are set: only top-k set
adds the top-k panel alone; only every-k set adds the every-k panel alone;
both set add both panels side by side; neither set adds no fourth row. -/
theorem print_startup_fourth_row (ed : String) (cf : Option String)
    (tp : List String) (wt : Option (List String)) (sid : PyVal)
    (ut : Bool) (mt : String) (ck : Option String)
    (se st : Option Int) (m : Option String) (mm : Option Bool) :
    (se = none → st = none →
      (startupGrid ed cf tp wt sid ut mt ck se st m mm).length = 3) ∧
    (∀ k : Int, se = none → st = some k →
      (startupGrid ed cf tp wt sid ut mt ck se st m mm).length = 4 ∧
      (startupGrid ed cf tp wt sid ut mt ck se st m mm).getD 3 [] =
        [⟨format_content ":trident: Top k ckpt" (.int k)⟩]) ∧
    (∀ k : Int, se = some k → st = none →
      (startupGrid ed cf tp wt sid ut mt ck se st m mm).length = 4 ∧
      (startupGrid ed cf tp wt sid ut mt ck se st m mm).getD 3 [] =
        [⟨format_content ":clock1130: Every k-th ckpt" (.int k)⟩]) ∧
    (∀ k j : Int, se = some k → st = some j →
      (startupGrid ed cf tp wt sid ut mt ck se st m mm).length = 4 ∧
      (startupGrid ed cf tp wt sid ut mt ck se st m mm).getD 3 [] =
        [⟨format_content ":clock1130: Every k-th ckpt" (.int k)⟩,
         ⟨format_content ":trident: Top k ckpt" (.int j)⟩]) := by
  refine ⟨?_, ?_, ?_, ?_⟩
  · intro h1 h2; subst h1; subst h2
    simp [startupGrid, startupRenderables]
  · intro k h1 h2; subst h1; subst h2
    refine ⟨by simp [startupGrid, startupRenderables], ?_⟩
    simp [startupGrid, startupRenderables, optInt]
  · intro k h1 h2; subst h1; subst h2
    refine ⟨by simp [startupGrid, startupRenderables], ?_⟩
    simp [startupGrid, startupRenderables, optInt]
  · intro k j h1 h2; subst h1; subst h2
    refine ⟨by simp [startupGrid, startupRenderables], ?_⟩
    simp [startupGrid, startupRenderables, optInt]

theorem print_startup_fourth_row_witness :
    (startupGrid "d" none [] none (.int 0) false "jax" none (some 10) none
      none none).length = 4 ∧
    (startupGrid "d" none [] none (.int 0) false "jax" none (some 10) none
      none none).getD 3 [] =
      [⟨format_content ":clock1130: Every k-th ckpt" (.int 10)⟩] ∧
    (startupGrid "d" none [] none (.int 0) false "jax" none none none
      none none).length = 3 := by
  obtain ⟨h1, _, h3, _⟩ := print_startup_fourth_row "d" none [] none (.int 0)
    false "jax" none (some 10) none none none
  obtain ⟨h4, h5⟩ := h3 10 rfl rfl
  refine ⟨h4, h5, ?_⟩
  exact (print_startup_fourth_row "d" none [] none (.int 0) false "jax" none
    none none none none).1 rfl rfl

/-- C7: In `print_startup` the Time panel displays exactly the elements of
`time_to_track` in order, with every occurrence of "time" and "time_elapsed"
removed and all other names kept unchanged. -/
theorem startup_time_filter (ed : String) (cf : Option String)
    (wt : Option (List String)) (sid : PyVal) (ut : Bool) (mt : String)
    (ck : Option String) (se st : Option Int) (m : Option String)
    (mm : Option Bool) (tt : List String) :
    ((startupGrid ed cf (startup_time_to_print tt) wt sid ut mt ck se st m
        mm).getD 1 []).getD 0 ⟨""⟩ =
      ⟨"[b]:watch: Time[/b]: " ++
        String.intercalate ", " (startup_time_to_print tt)⟩ ∧
    (startup_time_to_print tt).Sublist tt ∧
    (∀ t, t ∈ startup_time_to_print tt ↔
      (t ∈ tt ∧ t ≠ "time" ∧ t ≠ "time_elapsed")) ∧
    (∀ t, t ≠ "time" → t ≠ "time_elapsed" →
      (startup_time_to_print tt).count t = tt.count t) := by
  refine ⟨?_, ?_, ?_, ?_⟩
  · have hmap : ((startup_time_to_print tt).map PyVal.str).map pyStr =
        startup_time_to_print tt := by
      rw [List.map_map]
      have h : pyStr ∘ PyVal.str = id := funext (fun s => rfl)
      rw [h, List.map_id]
    simp [startupGrid, startupRenderables, format_content, format_value, hmap]
  · exact List.filter_sublist tt
  · intro t
    simp [startup_time_to_print, List.mem_filter]
  · intro t h1 h2
    rw [startup_time_to_print]
    exact List.count_filter (by simp [h1, h2])

theorem startup_time_filter_witness :
    ((startupGrid "d" none (startup_time_to_print ["num_updates", "time",
        "time_elapsed", "epoch"]) none (.int 0) false "jax" none none none
        none none).getD 1 []).getD 0 ⟨""⟩ =
      ⟨"[b]:watch: Time[/b]: " ++
        String.intercalate ", " ["num_updates", "epoch"]⟩ ∧
    ("epoch" ∈ startup_time_to_print ["num_updates", "time", "time_elapsed",
      "epoch"] ∧ "time" ∉ startup_time_to_print ["num_updates", "time",
      "time_elapsed", "epoch"]) ∧
    (startup_time_to_print ["num_updates", "time", "time_elapsed",
      "epoch"]).count "epoch" = 1 := by
  obtain ⟨h1, _, h3, h4⟩ := startup_time_filter "d" none none (.int 0) false
    "jax" none none none none none
    ["num_updates", "time", "time_elapsed", "epoch"]
  refine ⟨by rw [h1]; decide, ⟨?_, ?_⟩, ?_⟩
  · exact (h3 "epoch").2 (by decide)
  · intro hmem
    exact absurd ((h3 "time").1 hmem).2.1 (by simp)
  · rw [h4 "epoch" (by decide) (by decide)]
    decide

/-- C10: The grid printed by `print_startup` is independent of
`print_every_k_updates`, `use_tboard`, `reload`, `ckpt_time_to_track`,
`top_k_metric_name` and `top_k_minimize_metric`: two calls differing only in
those six arguments render identically, because the panels built from them
are never added to the grid. -/
theorem print_startup_unused_args_independent (ed : String)
    (cf : Option String) (tt wt : Option (List String)) (mt : String)
    (sid : PyVal) (tb1 tb2 rl1 rl2 : Bool) (pk1 pk2 : Option Int)
    (ctt1 ctt2 : Option String) (se st : Option Int)
    (mn1 mn2 : Option String) (mz1 mz2 : Option Bool) :
    print_startup ed cf tt wt mt sid tb1 rl1 pk1 ctt1 se st mn1 mz1 =
    print_startup ed cf tt wt mt sid tb2 rl2 pk2 ctt2 se st mn2 mz2 := by
  cases tt <;> rfl

/-- Two string concatenations differ whenever their first parts differ at a
position inside both. -/
theorem string_append_ne_at (a1 a2 e1 e2 : String) (i : Nat)
    (h1 : i < a1.data.length) (h2 : i < a2.data.length)
    (hne : a1.data.getD i ' ' ≠ a2.data.getD i ' ') :
    a1 ++ e1 ≠ a2 ++ e2 := by
  intro h
  apply hne
  have hdata := congrArg String.data h
  rw [String.data_append, String.data_append] at hdata
  have g1 : (a1.data ++ e1.data).getD i ' ' = a1.data.getD i ' ' := by
    rw [List.getD_eq_getElem?_getD, List.getD_eq_getElem?_getD,
      List.getElem?_append_left h1]
  have g2 : (a2.data ++ e2.data).getD i ' ' = a2.data.getD i ' ' := by
    rw [List.getD_eq_getElem?_getD, List.getD_eq_getElem?_getD,
      List.getElem?_append_left h2]
  rw [← g1, ← g2, hdata]

/-- Two `format_content` outputs differ whenever their bold-title parts differ
at a position inside both. -/
theorem format_content_ne (t1 t2 : String) (v1 v2 : PyVal) (i : Nat)
    (h1 : i < ("[b]" ++ t1 ++ "[/b]: ").data.length)
    (h2 : i < ("[b]" ++ t2 ++ "[/b]: ").data.length)
    (hne : ("[b]" ++ t1 ++ "[/b]: ").data.getD i ' ' ≠
      ("[b]" ++ t2 ++ "[/b]: ").data.getD i ' ') :
    format_content t1 v1 ≠ format_content t2 v2 := by
  unfold format_content
  exact string_append_ne_at _ _ _ _ i h1 h2 hne

/-- C4 counterexample: `print_startup` with `time_to_track=None` raises (the
list comprehension iterates `None`), and with `config_fname=None` the grid
still contains a Config panel rendering `None` — so an omitted optional field
can raise, and can produce a panel referencing it. -/
theorem print_startup_optional_counterexample :
    print_startup "exp_dir" none none (some ["loss"]) "torch" (.int 1) false
      false none none none none none none = none ∧
    print_startup "exp_dir" none (some []) (some ["loss"]) "torch" (.int 1)
      false false none none none none none none =
      some (startupGrid "exp_dir" none [] (some ["loss"]) (.int 1) false
        "torch" none none none none none) ∧
    (startupGrid "exp_dir" none [] (some ["loss"]) (.int 1) false "torch"
        none none none none none).getD 0 [] =
      [⟨"[b]:book: Log Dir[/b]: exp_dir"⟩,
       ⟨"[b]:page_facing_up: Config[/b]: None"⟩] := by
  refine ⟨rfl, rfl, ?_⟩
  simp [startupGrid, startupRenderables, format_content, format_value, optStr,
    pyStr, pyRepr]

/-- C4 (amended): With `time_to_track` an actual list, `print_startup` never
raises for any combination of the optional arguments; the Config (and other
fixed) panels are always present, rendering `None` when their field is
omitted, while an omitted `save_every_k_ckpt` / `save_top_k_ckpt` produces no
panel referencing it. -/
theorem print_startup_optional_fields (ed : String) (cf : Option String)
    (wt : Option (List String)) (mt : String) (sid : PyVal) (tb rl : Bool)
    (pk : Option Int) (ctt : Option String) (se st : Option Int)
    (mn : Option String) (mz : Option Bool) (tt : List String) :
    (print_startup ed cf (some tt) wt mt sid tb rl pk ctt se st mn
      mz).isSome = true ∧
    (startupGrid ed cf (startup_time_to_print tt) wt sid tb mt ctt se st mn
      mz).getD 0 [] =
      [⟨format_content ":book: Log Dir" (.str ed)⟩,
       ⟨format_content ":page_facing_up: Config" (optStr cf)⟩] ∧
    (startupGrid ed cf (startup_time_to_print tt) wt sid tb mt ctt se st mn
      mz).getD 1 [] =
      [⟨format_content ":watch: Time"
          (.list ((startup_time_to_print tt).map .str))⟩,
       ⟨format_content ":chart_with_downwards_trend: Stats"
          (match wt with
           | some xs => .list (xs.map .str)
           | none => .none)⟩] ∧
    (startupGrid ed cf (startup_time_to_print tt) wt sid tb mt ctt se st mn
      mz).getD 2 [] =
      [⟨format_content ":seedling: Seed ID" sid⟩,
       ⟨format_content ":rocket: Model" (.str mt)⟩] ∧
    (wt = none →
      (startupGrid ed cf (startup_time_to_print tt) wt sid tb mt ctt se st mn
        mz).getD 1 [] =
        [⟨format_content ":watch: Time"
            (.list ((startup_time_to_print tt).map .str))⟩,
         ⟨"[b]:chart_with_downwards_trend: Stats[/b]: None"⟩]) ∧
    (se = none → ∀ k : Int,
      (⟨format_content ":clock1130: Every k-th ckpt" (.int k)⟩ : Panel) ∉
        (startupGrid ed cf (startup_time_to_print tt) wt sid tb mt ctt se st
          mn mz).flatten) ∧
    (st = none → ∀ k : Int,
      (⟨format_content ":trident: Top k ckpt" (.int k)⟩ : Panel) ∉
        (startupGrid ed cf (startup_time_to_print tt) wt sid tb mt ctt se st
          mn mz).flatten) := by
  refine ⟨rfl, ?_, ?_, ?_, ?_, ?_, ?_⟩
  · simp only [startupGrid]
    rw [getD_append_lt _ _ _ _ (by simp)]
    simp [startupRenderables]
  · simp only [startupGrid]
    rw [getD_append_lt _ _ _ _ (by simp)]
    simp [startupRenderables]
  · simp only [startupGrid]
    rw [getD_append_lt _ _ _ _ (by simp)]
    simp [startupRenderables]
  · intro h
    subst h
    simp only [startupGrid]
    rw [getD_append_lt _ _ _ _ (by simp)]
    simp [startupRenderables, format_content, format_value, pyStr, pyRepr]
  · intro h k
    subst h
    rcases st with _ | j <;>
      · intro hmem
        simp [startupGrid, startupRenderables, Panel.mk.injEq] at hmem
        rcases hmem with h | h | h | h | h | h | h <;>
          revert h <;>
          first
            | exact format_content_ne _ _ _ _ 4 (by decide) (by decide) (by decide)
            | exact format_content_ne _ _ _ _ 5 (by decide) (by decide) (by decide)
  · intro h k
    subst h
    rcases se with _ | j <;>
      · intro hmem
        simp [startupGrid, startupRenderables, Panel.mk.injEq] at hmem
        rcases hmem with h | h | h | h | h | h | h <;>
          revert h <;>
          first
            | exact format_content_ne _ _ _ _ 4 (by decide) (by decide) (by decide)
            | exact format_content_ne _ _ _ _ 5 (by decide) (by decide) (by decide)

theorem print_startup_optional_fields_witness :
    (print_startup "d" none (some ["t"]) none "jax" (.int 0) false false none
      none none none none none).isSome = true ∧
    (startupGrid "d" none (startup_time_to_print ["t"]) none (.int 0) false
      "jax" none none none none none).getD 1 [] =
      [⟨format_content ":watch: Time"
          (.list ((startup_time_to_print ["t"]).map .str))⟩,
       ⟨"[b]:chart_with_downwards_trend: Stats[/b]: None"⟩] ∧
    (⟨format_content ":clock1130: Every k-th ckpt" (.int 7)⟩ : Panel) ∉
      (startupGrid "d" none (startup_time_to_print ["t"]) none (.int 0) false
        "jax" none none none none none).flatten ∧
    (⟨format_content ":trident: Top k ckpt" (.int 7)⟩ : Panel) ∉
      (startupGrid "d" none (startup_time_to_print ["t"]) none (.int 0) false
        "jax" none none none none none).flatten := by
  obtain ⟨h1, _, _, _, h5, h6, h7⟩ := print_startup_optional_fields "d" none
    none "jax" (.int 0) false false none none none none none none ["t"]
  exact ⟨h1, h5 rfl, h6 rfl 7, h7 rfl 7⟩

theorem digitChar_isDigit : ∀ n : Nat, n < 10 → (Nat.digitChar n).isDigit = true := by
  decide

/-- The strftime output of the welcome banner, character by character. -/
theorem strftimeWelcome_data (dt : DateTime) :
    (strftimeWelcome dt).data =
      [Nat.digitChar (dt.day / 10), Nat.digitChar (dt.day % 10), '/',
       Nat.digitChar (dt.month / 10), Nat.digitChar (dt.month % 10), '/',
       Nat.digitChar (dt.year % 100 / 10), Nat.digitChar (dt.year % 100 % 10),
       ' ', Nat.digitChar (dt.hour / 10), Nat.digitChar (dt.hour % 10), ':',
       Nat.digitChar (dt.minute / 10), Nat.digitChar (dt.minute % 10), ':',
       Nat.digitChar (dt.second / 10), Nat.digitChar (dt.second % 10)] := rfl

/-- C9: `print_welcome` reads only the wall clock and the version string; its
output always contains the current timestamp in `DD/MM/YY HH:MM:SS` shape and
the version string, alongside the fixed logo lines and the fixed author and
documentation links. -/
theorem print_welcome_contents (version : String) (dt : DateTime)
    (hd : dt.day ≤ 31) (hmo : dt.month ≤ 12) (hh : dt.hour ≤ 23)
    (hmi : dt.minute ≤ 59) (hs : dt.second ≤ 59) :
    timestampShape (strftimeWelcome dt) = true ∧
    (print_welcome version dt).map Prod.fst =
      [welcome_ascii.getD 1 "", welcome_ascii.getD 2 "",
       welcome_ascii.getD 3 "", welcome_ascii.getD 4 "",
       welcome_ascii.getD 5 ""] ∧
    (welcome_ascii.getD 1 "", strftimeWelcome dt) ∈ print_welcome version dt ∧
    (welcome_ascii.getD 2 "", "Logger v" ++ version ++ " :lock_with_ink_pen:")
      ∈ print_welcome version dt ∧
    (welcome_ascii.getD 3 "",
      "  [link=https://twitter.com/RobertTLange]@RobertTLange[/link] :bird:")
      ∈ print_welcome version dt ∧
    (welcome_ascii.getD 4 "",
      "  [link=https://github.com/RobertTLange/mle-logging/blob/main/examples/getting_started.ipynb]MLE-Log Docs[/link] [not italic]:notebook:[/]")
      ∈ print_welcome version dt ∧
    (welcome_ascii.getD 5 "",
      "  [link=https://github.com/RobertTLange/mle-logging/]MLE-Log Repo[/link] [not italic]:pencil:[/]")
      ∈ print_welcome version dt := by
  refine ⟨?_, rfl, by simp [print_welcome], by simp [print_welcome],
    by simp [print_welcome], by simp [print_welcome], by simp [print_welcome]⟩
  rw [timestampShape, strftimeWelcome_data, timestampShapeChars]
  have hday : dt.day / 10 < 10 := by omega
  have hmon : dt.month / 10 < 10 := by omega
  have hyr : dt.year % 100 / 10 < 10 := by omega
  have hhr : dt.hour / 10 < 10 := by omega
  have hmin : dt.minute / 10 < 10 := by omega
  have hsec : dt.second / 10 < 10 := by omega
  simp only [Bool.and_eq_true]
  refine ⟨⟨⟨⟨⟨⟨⟨⟨⟨⟨⟨⟨⟨⟨⟨⟨?_, ?_⟩, ?_⟩, ?_⟩, ?_⟩, ?_⟩, ?_⟩, ?_⟩, ?_⟩, ?_⟩,
    ?_⟩, ?_⟩, ?_⟩, ?_⟩, ?_⟩, ?_⟩, ?_⟩ <;>
    first
      | rfl
      | exact digitChar_isDigit _ (by omega)
      | exact digitChar_isDigit _ (by assumption)

theorem print_welcome_contents_witness :
    timestampShape (strftimeWelcome ⟨12, 10, 2026, 9, 30, 5⟩) = true ∧
    (welcome_ascii.getD 2 "", "Logger v" ++ "0.0.4" ++ " :lock_with_ink_pen:")
      ∈ print_welcome "0.0.4" ⟨12, 10, 2026, 9, 30, 5⟩ := by
  obtain ⟨h1, _, _, h4, _, _, _⟩ := print_welcome_contents "0.0.4"
    ⟨12, 10, 2026, 9, 30, 5⟩ (by decide) (by decide) (by decide) (by decide)
    (by decide)
  exact ⟨h1, h4⟩
